import Mathlib

/-!
Verification of the resilient HTTP client of terraform-provider-cachix
(src/internal/provider/client.go) and the cache-name validator
(src/internal/provider/helpers.go, cache_resource.go).

Shallow embedding conventions:
- HTTP status codes are `Int` (Go `int`).
- Durations are `Nat` nanoseconds (Go `time.Duration`).
- A response body is its raw text together with the result of parsing it
  as JSON (`none` when the text is not valid JSON); the linkage between
  the two is the JSON grammar, which is external library code
  (`encoding/json`) and is not re-modelled here.
- Go `error` values form the inductive `GoError`; `fmt.Errorf("...: %w", e)`
  is `GoError.wrapped`, and a `nil` error argument is `Option GoError`.
- The transport (`http.Client.Do` plus `io.ReadAll`) is a function from the
  attempt number to an `AttemptOutcome`; context cancellation during the
  backoff wait preceding attempt `i` is a function `cancelled : Nat → Bool`.
-/

/-- Retry policy from client.go shouldRetry: retry on server errors (5xx)
and rate limiting (429). -/
def shouldRetry (statusCode : Int) : Bool :=
  decide (500 ≤ statusCode) || decide (statusCode = 429)

/-- DefaultRetryMax from client.go. -/
def DefaultRetryMax : Nat := 3

/-- DefaultRetryWaitMin from client.go, in nanoseconds (1 second). -/
def DefaultRetryWaitMin : Nat := 1000000000

/-- DefaultRetryWaitMax from client.go, in nanoseconds (30 seconds). -/
def DefaultRetryWaitMax : Nat := 30000000000

/-- Backoff from client.go calculateBackoff:
`wait := float64(DefaultRetryWaitMin) * math.Pow(2, float64(attempt-1))`,
capped at DefaultRetryWaitMax. For every attempt ≥ 1 the float64
computation is exact until it exceeds the cap (the uncapped values are
1e9·2^(a-1) ≤ 1.6e10 < 2^53, and any larger or overflowed value is
capped), so Nat arithmetic models it faithfully on that domain. -/
def calculateBackoff (attempt : Nat) : Nat :=
  let wait := DefaultRetryWaitMin * 2 ^ (attempt - 1)
  if wait > DefaultRetryWaitMax then DefaultRetryWaitMax else wait

/-- A JSON value, as produced by parsing a response body. -/
inductive JVal where
  | jnull
  | jbool (b : Bool)
  | jnum (n : Int)
  | jstr (s : String)
  | jarr (elems : List JVal)
  | jobj (fields : List (String × JVal))

/-- A response body: the raw bytes as text, plus the result of parsing the
raw text as JSON (`none` when malformed). -/
structure HttpBody where
  raw : String
  json : Option JVal

/-- The anonymous struct client.go unmarshals error bodies into:
`struct { Error string; Message string }`. Absent JSON fields leave the
Go zero value, the empty string. -/
structure ErrResp where
  error : String
  message : String
deriving DecidableEq

/-- APIError from client.go. -/
structure APIError where
  StatusCode : Int
  Message : String
  Body : String
deriving DecidableEq

/-- Cache from client.go (JSON tags name, uri, isPublic,
publicSigningKeys, createdAt). -/
structure Cache where
  Name : String
  URI : String
  IsPublic : Bool
  PublicSigningKeys : List String
  CreatedAt : String
deriving DecidableEq

/-- User from client.go (JSON tags id, githubUsername, email, fullname,
subscriptionPlan). -/
structure User where
  ID : Int
  Username : String
  Email : String
  Fullname : String
  SubscriptionPlan : String
deriving DecidableEq

/-- CreateCacheRequest from client.go. -/
structure CreateCacheRequest where
  IsPublic : Bool
  GenerateSigningKey : Bool
  AccountID : Int
deriving DecidableEq

/-- Go error values as this client produces them. `wrapped` is
`fmt.Errorf(str ++ ": %w", cause)`; `wrappedNone` is the same with a nil
cause; `ctxErr` is `ctx.Err()`; `jsonDecodeErr` stands for an
`encoding/json` unmarshal error. -/
inductive GoError where
  | apiError (e : APIError)
  | transportErr (msg : String)
  | readBodyErr (msg : String)
  | jsonDecodeErr
  | ctxErr
  | wrapped (pre : String) (cause : GoError)
  | wrappedNone (pre : String)
deriving DecidableEq

/-- Go json field decode for a string-typed struct field: absent or null
leaves the zero value ""; a JSON string sets it; any other type makes the
whole unmarshal fail. Duplicate keys: the last occurrence wins. -/
def jStrField (fields : List (String × JVal)) (key : String) : Option String :=
  match List.lookup key fields.reverse with
  | none => some ""
  | some (.jstr s) => some s
  | some .jnull => some ""
  | some _ => none

/-- Go json field decode for an int-typed struct field. -/
def jIntField (fields : List (String × JVal)) (key : String) : Option Int :=
  match List.lookup key fields.reverse with
  | none => some 0
  | some (.jnum n) => some n
  | some .jnull => some 0
  | some _ => none

/-- Go json field decode for a bool-typed struct field. -/
def jBoolField (fields : List (String × JVal)) (key : String) : Option Bool :=
  match List.lookup key fields.reverse with
  | none => some false
  | some (.jbool b) => some b
  | some .jnull => some false
  | some _ => none

/-- Go json decode of one []string element. -/
def jStrElem : JVal → Option String
  | .jstr s => some s
  | .jnull => some ""
  | _ => none

/-- Go json field decode for a []string-typed struct field: absent or null
leaves the nil slice; an array requires every element to be a string. -/
def jStrListField (fields : List (String × JVal)) (key : String) :
    Option (List String) :=
  match List.lookup key fields.reverse with
  | none => some []
  | some .jnull => some []
  | some (.jarr xs) => xs.mapM jStrElem
  | some _ => none

/-- `json.Unmarshal` of a body into the two-field error struct: fails on
malformed JSON (`none` input) and on non-object documents; `null`
succeeds leaving zero values. -/
def decodeErrResp : Option JVal → Option ErrResp
  | some (.jobj fs) =>
    match jStrField fs "error", jStrField fs "message" with
    | some e, some m => some ⟨e, m⟩
    | _, _ => none
  | some .jnull => some ⟨"", ""⟩
  | _ => none

/-- `json.Unmarshal` of a body into Cache. -/
def decodeCache : Option JVal → Option Cache
  | some (.jobj fs) =>
    match jStrField fs "name", jStrField fs "uri", jBoolField fs "isPublic",
        jStrListField fs "publicSigningKeys", jStrField fs "createdAt" with
    | some n, some u, some p, some ks, some ca => some ⟨n, u, p, ks, ca⟩
    | _, _, _, _, _ => none
  | some .jnull => some ⟨"", "", false, [], ""⟩
  | _ => none

/-- `json.Unmarshal` of a body into User. -/
def decodeUser : Option JVal → Option User
  | some (.jobj fs) =>
    match jIntField fs "id", jStrField fs "githubUsername",
        jStrField fs "email", jStrField fs "fullname",
        jStrField fs "subscriptionPlan" with
    | some i, some un, some em, some fn, some sp =>
      some ⟨i, un, em, fn, sp⟩
    | _, _, _, _, _ => none
  | some .jnull => some ⟨0, "", "", "", ""⟩
  | _ => none

/-- handleErrorResponse from client.go: build an APIError from the status
code and raw body, fill Message from the parsed body's error or message
field, then the 401/403/404 switch fills canned text when Message is
still empty. -/
def handleErrorResponse (statusCode : Int) (body : HttpBody) : APIError :=
  let base : APIError := ⟨statusCode, "", body.raw⟩
  let withParsed : APIError :=
    match decodeErrResp body.json with
    | some er =>
      if er.error ≠ "" then { base with Message := er.error }
      else if er.message ≠ "" then { base with Message := er.message }
      else base
    | none => base
  if statusCode = 401 ∧ withParsed.Message = "" then
    { withParsed with Message := "authentication failed: invalid or expired token" }
  else if statusCode = 403 ∧ withParsed.Message = "" then
    { withParsed with Message := "access denied: insufficient permissions" }
  else if statusCode = 404 ∧ withParsed.Message = "" then
    { withParsed with Message := "resource not found" }
  else withParsed

/-- The list of APIError values in an error's unwrap chain (each wrapped
error has exactly one cause, and APIError never wraps, so the chain is
linear and holds at most one APIError). -/
def chainAPIErrors : GoError → List APIError
  | .apiError e => [e]
  | .wrapped _ cause => chainAPIErrors cause
  | _ => []

/-- `errors.As(err, &apiErr)`: first APIError in the unwrap chain. -/
def firstAPIError : GoError → Option APIError
  | .apiError e => some e
  | .wrapped _ cause => firstAPIError cause
  | _ => none

/-- IsNotFoundError from client.go; the argument is `Option` because Go
callers may pass a nil error, on which `errors.As` reports false. -/
def IsNotFoundError : Option GoError → Bool
  | none => false
  | some e =>
    match firstAPIError e with
    | some a => a.StatusCode == 404
    | none => false

/-- The observable outcome of one HTTP attempt: `doErr` is a failure of
`httpClient.Do`, `readErr` a failure of `io.ReadAll` on the response
body, `response` a fully read response with its status code and body. -/
inductive AttemptOutcome where
  | doErr (msg : String)
  | readErr (msg : String)
  | response (status : Int) (body : HttpBody)

/-- Whether an attempt outcome sends the doRequest loop around again:
transport and body-read failures always do, a response does iff its
status is retryable. -/
def retryableOutcome : AttemptOutcome → Bool
  | .doErr _ => true
  | .readErr _ => true
  | .response status _ => shouldRetry status

/-- The value doRequest records as lastErr for a retried attempt:
the wrapped transport or read error, or the APIError built from the
status and raw body (message left unclassified). -/
def recordedErr : AttemptOutcome → GoError
  | .doErr m => .wrapped "failed to execute request" (.transportErr m)
  | .readErr m => .wrapped "failed to read response body" (.readBodyErr m)
  | .response status body => .apiError ⟨status, "", body.raw⟩

/-- The error doRequest returns on attempt-budget exhaustion:
`fmt.Errorf("max retries exceeded: %w", lastErr)`. -/
def maxRetriesErr : Option GoError → GoError
  | some e => .wrapped "max retries exceeded" e
  | none => .wrappedNone "max retries exceeded"

/-- The retry loop of doRequest from client.go. `fuel` is the number of
loop iterations left (initially retryMax+1), `attempt` the current
attempt index, `lastErr` the recorded last error, `made` the number of
HTTP attempts issued so far. Before each retry (attempt > 0) the Go code
selects on ctx.Done() against the backoff timer; `cancelled attempt`
tells whether the context fires first during that wait. The result pairs
doRequest's return value (status and body on success) with the total
number of HTTP attempts made. -/
def doRequestLoop (outcomes : Nat → AttemptOutcome) (cancelled : Nat → Bool) :
    Nat → Nat → Option GoError → Nat → Except GoError (Int × HttpBody) × Nat
  | 0, _, lastErr, made => (.error (maxRetriesErr lastErr), made)
  | fuel + 1, attempt, _lastErr, made =>
    if 0 < attempt ∧ cancelled attempt = true then
      (.error .ctxErr, made)
    else
      match outcomes attempt with
      | .doErr m =>
        doRequestLoop outcomes cancelled fuel (attempt + 1)
          (some (.wrapped "failed to execute request" (.transportErr m))) (made + 1)
      | .readErr m =>
        doRequestLoop outcomes cancelled fuel (attempt + 1)
          (some (.wrapped "failed to read response body" (.readBodyErr m))) (made + 1)
      | .response status body =>
        if shouldRetry status then
          doRequestLoop outcomes cancelled fuel (attempt + 1)
            (some (.apiError ⟨status, "", body.raw⟩)) (made + 1)
        else
          (.ok (status, body), made + 1)

/-- doRequest from client.go: run the attempt loop for retryMax+1 total
tries starting from attempt 0 with no recorded last error. -/
def doRequest (outcomes : Nat → AttemptOutcome) (cancelled : Nat → Bool)
    (retryMax : Nat) : Except GoError (Int × HttpBody) × Nat :=
  doRequestLoop outcomes cancelled (retryMax + 1) 0 none 0

/-- One logical HTTP request: method, path, and the optional JSON body
(the only body this client ever sends is a CreateCacheRequest). -/
structure Request where
  method : String
  path : String
  body : Option CreateCacheRequest
deriving DecidableEq

/-- The remote service as the client observes it: for a given request and
attempt number, the outcome of that attempt. -/
structure Server where
  respond : Request → Nat → AttemptOutcome

/-- Run doRequest for one logical request against a server, also
returning the trace of HTTP attempts issued (each attempt re-sends the
same request). -/
def runRequest (srv : Server) (cancelled : Nat → Bool) (retryMax : Nat)
    (req : Request) : Except GoError (Int × HttpBody) × List Request :=
  let r := doRequest (srv.respond req) cancelled retryMax
  (r.1, List.replicate r.2 req)

/-- GetCache from client.go: GET /cache/{name}; non-200 goes through
handleErrorResponse; a 200 body is unmarshalled into Cache. -/
def GetCache (srv : Server) (cancelled : Nat → Bool) (retryMax : Nat)
    (name : String) : Except GoError Cache × List Request :=
  let r := runRequest srv cancelled retryMax ⟨"GET", "/cache/" ++ name, none⟩
  match r.1 with
  | .error e => (.error e, r.2)
  | .ok (status, body) =>
    if status ≠ 200 then
      (.error (.apiError (handleErrorResponse status body)), r.2)
    else
      match decodeCache body.json with
      | none => (.error (.wrapped "failed to unmarshal cache response" .jsonDecodeErr), r.2)
      | some cache => (.ok cache, r.2)

/-- GetUser from client.go: GET /user; non-200 goes through
handleErrorResponse; a 200 body is unmarshalled into User. -/
def GetUser (srv : Server) (cancelled : Nat → Bool) (retryMax : Nat) :
    Except GoError User × List Request :=
  let r := runRequest srv cancelled retryMax ⟨"GET", "/user", none⟩
  match r.1 with
  | .error e => (.error e, r.2)
  | .ok (status, body) =>
    if status ≠ 200 then
      (.error (.apiError (handleErrorResponse status body)), r.2)
    else
      match decodeUser body.json with
      | none => (.error (.wrapped "failed to unmarshal user response" .jsonDecodeErr), r.2)
      | some user => (.ok user, r.2)

/-- The POST request CreateCache issues. -/
def postReqFor (name : String) (isPublic : Bool) (accountID : Int) : Request :=
  ⟨"POST", "/cache/" ++ name, some ⟨isPublic, true, accountID⟩⟩

/-- CreateCache from client.go: GetUser for the accountID (failure wraps
"failed to get user for cache creation" and issues nothing further),
then POST /cache/{name} with {isPublic, generateSigningKey: true,
accountID}; a status other than 200 and 201 goes through
handleErrorResponse; on success a follow-up GetCache supplies the
returned Cache, its failure wrapped as "cache created but failed to
fetch details". The second component is the full trace of HTTP attempts. -/
def CreateCache (srv : Server) (cancelled : Nat → Bool) (retryMax : Nat)
    (name : String) (isPublic : Bool) : Except GoError Cache × List Request :=
  match GetUser srv cancelled retryMax with
  | (.error e, tr) => (.error (.wrapped "failed to get user for cache creation" e), tr)
  | (.ok user, tr1) =>
    let r := runRequest srv cancelled retryMax (postReqFor name isPublic user.ID)
    match r.1 with
    | .error e => (.error e, tr1 ++ r.2)
    | .ok (status, body) =>
      if status ≠ 200 ∧ status ≠ 201 then
        (.error (.apiError (handleErrorResponse status body)), tr1 ++ r.2)
      else
        match GetCache srv cancelled retryMax name with
        | (.error e, tr3) =>
          (.error (.wrapped "cache created but failed to fetch details" e), tr1 ++ r.2 ++ tr3)
        | (.ok cache, tr3) => (.ok cache, tr1 ++ r.2 ++ tr3)

/-- The semantics of the anchored regular expression of
cacheNameValidator (helpers.go) and of the name attribute's validator
(cache_resource.go): one lowercase ASCII letter followed by any number
of lowercase letters, ASCII digits, or hyphens. The surrounding
stringvalidator.RegexMatches accepts a configured value exactly when the
regex matches it. -/
def cacheNameRegexMatches (s : String) : Bool :=
  match s.data with
  | [] => false
  | c :: cs =>
    ('a' ≤ c && c ≤ 'z') &&
      cs.all (fun ch => ('a' ≤ ch && ch ≤ 'z') || ('0' ≤ ch && ch ≤ '9') || ch = '-')

/-- Modelled from the spec (section 4.1): the default message for a
status code when no message was parsed from the body. -/
def classifyDefault (statusCode : Int) : String :=
  if statusCode = 401 then "authentication failed: invalid or expired token"
  else if statusCode = 403 then "access denied: insufficient permissions"
  else if statusCode = 404 then "resource not found"
  else ""

/-- Modelled from the spec (section 4.1): the classified message — the
parsed error field when non-empty, else the parsed message field when
non-empty, else the canned per-status default; absence of a parse result
also falls to the default. -/
def classifyMessageSpec (statusCode : Int) (parsed : Option ErrResp) : String :=
  match parsed with
  | some er =>
    if er.error ≠ "" then er.error
    else if er.message ≠ "" then er.message
    else classifyDefault statusCode
  | none => classifyDefault statusCode

/-- Modelled from the spec of claim C10: a cache name is one lowercase
ASCII letter followed by any sequence of lowercase letters, digits, or
hyphens. -/
def specCacheNameAccepted (s : String) : Prop :=
  ∃ c cs, s.data = c :: cs ∧ ('a' ≤ c ∧ c ≤ 'z') ∧
    ∀ ch ∈ cs, ('a' ≤ ch ∧ ch ≤ 'z') ∨ ('0' ≤ ch ∧ ch ≤ '9') ∨ ch = '-'

/-- The recorded last error after skipping k retried attempts starting
at `attempt` with incoming value `lastErr`. -/
def lastErrAfter (outcomes : Nat → AttemptOutcome) (lastErr : Option GoError)
    (attempt : Nat) : Nat → Option GoError
  | 0 => lastErr
  | k + 1 => some (recordedErr (outcomes (attempt + k)))

/-- Helper: one retried iteration of the loop steps fuel down and attempt
up, recording the attempt's error. -/
lemma doRequestLoop_step (outcomes : Nat → AttemptOutcome) (cancelled : Nat → Bool)
    (fuel attempt made : Nat) (lastErr : Option GoError)
    (hret : retryableOutcome (outcomes attempt) = true)
    (hcanc : cancelled attempt = false) :
    doRequestLoop outcomes cancelled (fuel + 1) attempt lastErr made =
      doRequestLoop outcomes cancelled fuel (attempt + 1)
        (some (recordedErr (outcomes attempt))) (made + 1) := by
  have hnc : ¬(0 < attempt ∧ cancelled attempt = true) := by
    intro h
    rw [hcanc] at h
    exact Bool.false_ne_true h.2
  cases ho : outcomes attempt with
  | doErr m =>
    simp [doRequestLoop, hnc, ho, recordedErr]
  | readErr m =>
    simp [doRequestLoop, hnc, ho, recordedErr]
  | response status body =>
    have hs : shouldRetry status = true := by
      have := hret
      rw [ho] at this
      simpa [retryableOutcome] using this
    simp [doRequestLoop, hnc, ho, hs, recordedErr]

/-- Helper: the loop skips k consecutive retried, uncancelled attempts,
decrementing fuel and accumulating the recorded error and the attempt
count. -/
lemma doRequestLoop_skip (outcomes : Nat → AttemptOutcome) (cancelled : Nat → Bool) :
    ∀ (k fuel attempt made : Nat) (lastErr : Option GoError),
      k ≤ fuel →
      (∀ i, i < k → retryableOutcome (outcomes (attempt + i)) = true) →
      (∀ i, i < k → cancelled (attempt + i) = false) →
      doRequestLoop outcomes cancelled fuel attempt lastErr made =
        doRequestLoop outcomes cancelled (fuel - k) (attempt + k)
          (lastErrAfter outcomes lastErr attempt k) (made + k) := by
  intro k
  induction k with
  | zero =>
    intro fuel attempt made lastErr _ _ _
    simp [lastErrAfter]
  | succ k ih =>
    intro fuel attempt made lastErr hk hret hcanc
    obtain ⟨f, rfl⟩ : ∃ f, fuel = f + 1 := ⟨fuel - 1, by omega⟩
    have hr0 : retryableOutcome (outcomes attempt) = true := by
      simpa using hret 0 (Nat.succ_pos _)
    have hc0 : cancelled attempt = false := by
      simpa using hcanc 0 (Nat.succ_pos _)
    rw [doRequestLoop_step outcomes cancelled f attempt made lastErr hr0 hc0]
    have hrec := ih f (attempt + 1) (made + 1)
      (some (recordedErr (outcomes attempt))) (by omega)
      (fun i hi => by
        have := hret (i + 1) (by omega)
        simpa [Nat.add_assoc, Nat.add_comm 1 i] using this)
      (fun i hi => by
        have := hcanc (i + 1) (by omega)
        simpa [Nat.add_assoc, Nat.add_comm 1 i] using this)
    rw [hrec]
    have hfuel : f - k = f + 1 - (k + 1) := by omega
    have hatt : attempt + 1 + k = attempt + (k + 1) := by omega
    have hmade : made + 1 + k = made + (k + 1) := by omega
    have hlast : lastErrAfter outcomes (some (recordedErr (outcomes attempt)))
        (attempt + 1) k = lastErrAfter outcomes lastErr attempt (k + 1) := by
      cases k with
      | zero => simp [lastErrAfter]
      | succ j =>
        have : attempt + 1 + j = attempt + (j + 1) := by omega
        simp [lastErrAfter, this]
    rw [hfuel, hatt, hmade, hlast]

/-- C3: for every attempt a ≥ 1 with the default configuration,
calculateBackoff a equals min(1s·2^(a-1), 30s); concretely 1s, 2s, 4s,
8s, 16s for attempts 1..5, and 30s for every attempt ≥ 6. -/
theorem claim_c3_backoff :
    (∀ a : Nat, 1 ≤ a →
      calculateBackoff a = min (DefaultRetryWaitMin * 2 ^ (a - 1)) DefaultRetryWaitMax) ∧
    calculateBackoff 1 = 1000000000 ∧
    calculateBackoff 2 = 2000000000 ∧
    calculateBackoff 3 = 4000000000 ∧
    calculateBackoff 4 = 8000000000 ∧
    calculateBackoff 5 = 16000000000 ∧
    (∀ a : Nat, 6 ≤ a → calculateBackoff a = DefaultRetryWaitMax) := by
  refine ⟨?_, by decide, by decide, by decide, by decide, by decide, ?_⟩
  · intro a _
    by_cases h : DefaultRetryWaitMin * 2 ^ (a - 1) > DefaultRetryWaitMax
    · simp only [calculateBackoff, if_pos h]
      omega
    · simp only [calculateBackoff, if_neg h]
      omega
  · intro a ha
    have h32 : (32 : Nat) ≤ 2 ^ (a - 1) := by
      calc (32 : Nat) = 2 ^ 5 := by decide
        _ ≤ 2 ^ (a - 1) := Nat.pow_le_pow_right (by decide) (by omega)
    have hmul : DefaultRetryWaitMin * 32 ≤ DefaultRetryWaitMin * 2 ^ (a - 1) :=
      Nat.mul_le_mul_left DefaultRetryWaitMin h32
    have hgt : DefaultRetryWaitMin * 2 ^ (a - 1) > DefaultRetryWaitMax := by
      unfold DefaultRetryWaitMin DefaultRetryWaitMax at *
      omega
    simp only [calculateBackoff, if_pos hgt]

/-- Witness for C3 at concrete attempts 6 and 2. -/
theorem claim_c3_backoff_witness :
    calculateBackoff 6 = DefaultRetryWaitMax ∧
    calculateBackoff 2 = min (DefaultRetryWaitMin * 2 ^ (2 - 1)) DefaultRetryWaitMax :=
  ⟨claim_c3_backoff.2.2.2.2.2.2 6 (by decide),
   claim_c3_backoff.1 2 (by decide)⟩

/-- C4: shouldRetry s is true exactly when s ≥ 500 or s = 429, and false
for every other status code. -/
theorem claim_c4_should_retry :
    ∀ s : Int, (shouldRetry s = true ↔ (500 ≤ s ∨ s = 429)) ∧
      (s < 500 ∧ s ≠ 429 → shouldRetry s = false) := by
  intro s
  constructor
  · simp [shouldRetry]
  · intro h
    simp only [shouldRetry, Bool.or_eq_false_iff, decide_eq_false_iff_not]
    omega

/-- Witness for C4 at 503, 429, 200, 404. -/
theorem claim_c4_should_retry_witness :
    shouldRetry 503 = true ∧ shouldRetry 429 = true ∧
    shouldRetry 200 = false ∧ shouldRetry 404 = false :=
  ⟨(claim_c4_should_retry 503).1.mpr (Or.inl (by decide)),
   (claim_c4_should_retry 429).1.mpr (Or.inr rfl),
   (claim_c4_should_retry 200).2 (by decide),
   (claim_c4_should_retry 404).2 (by decide)⟩

/-- C1: when every one of the retryMax+1 attempts fails at transport
level or returns a retryable status and the context never fires, exactly
retryMax+1 HTTP attempts are made and the result wraps "max retries
exceeded" around the last attempt's recorded error. -/
theorem claim_c1_max_retries (outcomes : Nat → AttemptOutcome)
    (cancelled : Nat → Bool) (retryMax : Nat)
    (hret : ∀ i, i ≤ retryMax → retryableOutcome (outcomes i) = true)
    (hcanc : ∀ i, i ≤ retryMax → cancelled i = false) :
    doRequest outcomes cancelled retryMax =
      (.error (.wrapped "max retries exceeded" (recordedErr (outcomes retryMax))),
       retryMax + 1) := by
  unfold doRequest
  rw [doRequestLoop_skip outcomes cancelled (retryMax + 1) (retryMax + 1) 0 0 none
    (le_refl _)
    (fun i hi => by simpa using hret i (by omega))
    (fun i hi => by simpa using hcanc i (by omega))]
  simp [doRequestLoop, lastErrAfter, maxRetriesErr]

/-- A server answering 500 on every attempt, with an empty body. -/
def always500 : Nat → AttemptOutcome := fun _ => .response 500 ⟨"", none⟩

/-- A context that never fires. -/
def noCancel : Nat → Bool := fun _ => false

/-- Witness for C1: a server always returning 500 with the default
retryMax yields 4 attempts and the wrapped max-retries error whose cause
is the APIError built from the last 500 response. -/
theorem claim_c1_max_retries_witness :
    doRequest always500 noCancel DefaultRetryMax =
      (.error (.wrapped "max retries exceeded" (.apiError ⟨500, "", ""⟩)), 4) :=
  claim_c1_max_retries always500 noCancel DefaultRetryMax
    (fun _ _ => rfl) (fun _ _ => rfl)

/-- C2: the first attempt whose response has a non-retryable status ends
the run at once with that response; attempts 0..k-1 retryable, attempt k
non-retryable means exactly k+1 HTTP attempts. -/
theorem claim_c2_immediate_return (outcomes : Nat → AttemptOutcome)
    (cancelled : Nat → Bool) (retryMax k : Nat) (s : Int) (b : HttpBody)
    (hk : k ≤ retryMax)
    (hpre : ∀ i, i < k → retryableOutcome (outcomes i) = true)
    (hcanc : ∀ i, i ≤ k → cancelled i = false)
    (hout : outcomes k = .response s b)
    (hs : shouldRetry s = false) :
    doRequest outcomes cancelled retryMax = (.ok (s, b), k + 1) := by
  unfold doRequest
  rw [doRequestLoop_skip outcomes cancelled k (retryMax + 1) 0 0 none
    (by omega)
    (fun i hi => by simpa using hpre i hi)
    (fun i hi => by simpa using hcanc i (by omega))]
  obtain ⟨f, hf⟩ : ∃ f, retryMax + 1 - k = f + 1 := ⟨retryMax - k, by omega⟩
  rw [hf]
  have hnc : ¬(0 < k ∧ cancelled k = true) := by
    intro h
    have := hcanc k (le_refl _)
    rw [this] at h
    exact Bool.false_ne_true h.2
  simp only [Nat.zero_add, doRequestLoop]
  rw [if_neg hnc, hout]
  simp [hs]

/-- A server answering 503 on the first two attempts and 200 afterwards. -/
def srv503then200 : Nat → AttemptOutcome := fun i =>
  if i < 2 then .response 503 ⟨"", none⟩ else .response 200 ⟨"", none⟩

/-- Witness for C2, Scenario C: 503, 503, then 200 means exactly 3
requests and the successful 200 response. -/
theorem claim_c2_immediate_return_witness :
    doRequest srv503then200 noCancel DefaultRetryMax =
      (.ok (200, ⟨"", none⟩), 3) :=
  claim_c2_immediate_return srv503then200 noCancel DefaultRetryMax 2 200 ⟨"", none⟩
    (by decide)
    (fun i hi => by
      simp only [srv503then200, if_pos hi]
      decide)
    (fun _ _ => rfl)
    rfl
    (by decide)

/-- C7: if the context fires during the backoff wait before attempt k
(all earlier attempts having been retryable), doRequest returns the
cancellation error at once, having made only the k earlier attempts. -/
theorem claim_c7_cancellation (outcomes : Nat → AttemptOutcome)
    (cancelled : Nat → Bool) (retryMax k : Nat)
    (hk1 : 1 ≤ k) (hk : k ≤ retryMax)
    (hpre : ∀ i, i < k → retryableOutcome (outcomes i) = true)
    (hcanc : ∀ i, i < k → cancelled i = false)
    (hck : cancelled k = true) :
    doRequest outcomes cancelled retryMax = (.error .ctxErr, k) := by
  unfold doRequest
  rw [doRequestLoop_skip outcomes cancelled k (retryMax + 1) 0 0 none
    (by omega)
    (fun i hi => by simpa using hpre i hi)
    (fun i hi => by simpa using hcanc i hi)]
  obtain ⟨f, hf⟩ : ∃ f, retryMax + 1 - k = f + 1 := ⟨retryMax - k, by omega⟩
  rw [hf]
  simp only [Nat.zero_add, doRequestLoop]
  rw [if_pos ⟨hk1, hck⟩]

/-- A server answering 503 on every attempt. -/
def always503 : Nat → AttemptOutcome := fun _ => .response 503 ⟨"", none⟩

/-- A context that fires during the wait preceding attempt 1. -/
def cancelAt1 : Nat → Bool := fun i => decide (i = 1)

/-- Witness for C7, Scenario F: cancellation during the first backoff
wait against an always-503 server yields the cancellation error, not a
max-retries error, after a single attempt. -/
theorem claim_c7_cancellation_witness :
    doRequest always503 cancelAt1 DefaultRetryMax = (.error .ctxErr, 1) :=
  claim_c7_cancellation always503 cancelAt1 DefaultRetryMax 1
    (le_refl 1) (by decide)
    (fun _ _ => rfl)
    (fun i hi => by
      have h0 : i = 0 := by omega
      subst h0
      rfl)
    rfl

/-- C5: handleErrorResponse keeps the status code and raw body and fills
Message exactly as the spec describes: parsed error field first, then
parsed message field, then the canned 401/403/404 text, else empty; a
malformed body (no parse result) behaves like an absent message. It is a
total function, so it never fails. -/
theorem claim_c5_classifier :
    ∀ (statusCode : Int) (body : HttpBody),
      handleErrorResponse statusCode body =
        ⟨statusCode, classifyMessageSpec statusCode (decodeErrResp body.json), body.raw⟩ := by
  intro statusCode body
  cases h : decodeErrResp body.json with
  | none =>
    simp only [handleErrorResponse, classifyMessageSpec, classifyDefault, h]
    split_ifs <;> simp_all
  | some er =>
    simp only [handleErrorResponse, classifyMessageSpec, classifyDefault, h]
    split_ifs <;> simp_all

/-- The classified message of Scenario B. -/
def msg404 : String := "cache \x27missing\x27 not found"

/-- The raw body of Scenario B. -/
def raw404 : String := "\x7b\"message\":\"cache \x27missing\x27 not found\"\x7d"

/-- A server answering 404 with the Scenario B body on every request. -/
def srv404 : Server :=
  ⟨fun _ _ => .response 404 ⟨raw404, some (.jobj [("message", .jstr msg404)])⟩⟩

/-- C8: IsNotFoundError is true exactly when the unwrap chain contains an
APIError with status 404; it is false on nil, on a max-retries error
wrapping a 500 APIError, and on a decode error; and it is true on the
APIError that GetCache produces from the Scenario B 404 response. -/
theorem claim_c8_is_not_found :
    (∀ e : GoError,
       IsNotFoundError (some e) =
         (chainAPIErrors e).any (fun a => a.StatusCode == 404)) ∧
    IsNotFoundError none = false ∧
    IsNotFoundError
      (some (.wrapped "max retries exceeded" (.apiError ⟨500, "", ""⟩))) = false ∧
    IsNotFoundError
      (some (.wrapped "failed to unmarshal cache response" .jsonDecodeErr)) = false ∧
    GetCache srv404 noCancel DefaultRetryMax "missing" =
      (.error (.apiError ⟨404, msg404, raw404⟩), [⟨"GET", "/cache/missing", none⟩]) ∧
    IsNotFoundError (some (.apiError ⟨404, msg404, raw404⟩)) = true := by
  refine ⟨?_, rfl, rfl, rfl, rfl, rfl⟩
  intro e
  induction e with
  | apiError a => simp [IsNotFoundError, firstAPIError, chainAPIErrors]
  | transportErr m => rfl
  | readBodyErr m => rfl
  | jsonDecodeErr => rfl
  | ctxErr => rfl
  | wrapped pre cause ih =>
    simpa [IsNotFoundError, firstAPIError, chainAPIErrors] using ih
  | wrappedNone pre => rfl

/-- C9: whenever the executor hands GetCache or GetUser a response whose
status is not 200 — 201 and 204 included — the operation returns the
classified APIError from handleErrorResponse, and a decoded Cache or
User value can only ever come from a 200 response. -/
theorem claim_c9_only_200 :
    (∀ (srv : Server) (cancelled : Nat → Bool) (retryMax : Nat) (name : String)
        (s : Int) (b : HttpBody),
      (runRequest srv cancelled retryMax ⟨"GET", "/cache/" ++ name, none⟩).1 = .ok (s, b) →
      s ≠ 200 →
      GetCache srv cancelled retryMax name =
        (.error (.apiError (handleErrorResponse s b)),
         (runRequest srv cancelled retryMax ⟨"GET", "/cache/" ++ name, none⟩).2)) ∧
    (∀ (srv : Server) (cancelled : Nat → Bool) (retryMax : Nat) (name : String)
        (cache : Cache) (tr : List Request),
      GetCache srv cancelled retryMax name = (.ok cache, tr) →
      ∃ b, (runRequest srv cancelled retryMax ⟨"GET", "/cache/" ++ name, none⟩).1 = .ok (200, b) ∧
        decodeCache b.json = some cache) ∧
    (∀ (srv : Server) (cancelled : Nat → Bool) (retryMax : Nat)
        (s : Int) (b : HttpBody),
      (runRequest srv cancelled retryMax ⟨"GET", "/user", none⟩).1 = .ok (s, b) →
      s ≠ 200 →
      GetUser srv cancelled retryMax =
        (.error (.apiError (handleErrorResponse s b)),
         (runRequest srv cancelled retryMax ⟨"GET", "/user", none⟩).2)) ∧
    (∀ (srv : Server) (cancelled : Nat → Bool) (retryMax : Nat)
        (user : User) (tr : List Request),
      GetUser srv cancelled retryMax = (.ok user, tr) →
      ∃ b, (runRequest srv cancelled retryMax ⟨"GET", "/user", none⟩).1 = .ok (200, b) ∧
        decodeUser b.json = some user) := by
  refine ⟨?_, ?_, ?_, ?_⟩
  · intro srv cancelled retryMax name s b hok hs
    simp only [GetCache, hok]
    rw [if_pos hs]
  · intro srv cancelled retryMax name cache tr h
    cases hr : (runRequest srv cancelled retryMax ⟨"GET", "/cache/" ++ name, none⟩).1 with
    | error e => simp [GetCache, hr] at h
    | ok p =>
      obtain ⟨s, b⟩ := p
      by_cases hs : s = 200
      · subst hs
        cases hd : decodeCache b.json with
        | none => simp [GetCache, hr, hd] at h
        | some c =>
          simp only [GetCache, hr] at h
          rw [if_neg (by simp), hd] at h
          simp only [Prod.mk.injEq, Except.ok.injEq] at h
          exact ⟨b, rfl, by rw [hd, h.1]⟩
      · simp only [GetCache, hr] at h
        rw [if_pos hs] at h
        simp at h
  · intro srv cancelled retryMax s b hok hs
    simp only [GetUser, hok]
    rw [if_pos hs]
  · intro srv cancelled retryMax user tr h
    cases hr : (runRequest srv cancelled retryMax ⟨"GET", "/user", none⟩).1 with
    | error e => simp [GetUser, hr] at h
    | ok p =>
      obtain ⟨s, b⟩ := p
      by_cases hs : s = 200
      · subst hs
        cases hd : decodeUser b.json with
        | none => simp [GetUser, hr, hd] at h
        | some u =>
          simp only [GetUser, hr] at h
          rw [if_neg (by simp), hd] at h
          simp only [Prod.mk.injEq, Except.ok.injEq] at h
          exact ⟨b, rfl, by rw [hd, h.1]⟩
      · simp only [GetUser, hr] at h
        rw [if_pos hs] at h
        simp at h

/-- A server answering 204 with an empty body on every request. -/
def srv204 : Server := ⟨fun _ _ => .response 204 ⟨"", none⟩⟩

/-- Witness for C9: a 204 reply to GetCache produces the APIError with
status 204 and empty classified message, not a Cache. -/
theorem claim_c9_only_200_witness :
    GetCache srv204 noCancel DefaultRetryMax "tc" =
      (.error (.apiError ⟨204, "", ""⟩), [⟨"GET", "/cache/tc", none⟩]) ∧
    handleErrorResponse 204 ⟨"", none⟩ = ⟨204, "", ""⟩ :=
  ⟨claim_c9_only_200.1 srv204 noCancel DefaultRetryMax "tc" 204 ⟨"", none⟩ rfl
    (by decide), rfl⟩

/-- Helper: the regex-match predicate coincides with the character-level
description of an accepted cache name. -/
lemma cacheNameRegexMatches_iff (s : String) :
    cacheNameRegexMatches s = true ↔ specCacheNameAccepted s := by
  obtain ⟨data⟩ := s
  cases data with
  | nil =>
    simp [cacheNameRegexMatches, specCacheNameAccepted]
  | cons c cs =>
    simp only [cacheNameRegexMatches, specCacheNameAccepted, Bool.and_eq_true,
      Bool.or_eq_true, List.all_eq_true, decide_eq_true_eq]
    constructor
    · rintro ⟨⟨h1, h2⟩, h3⟩
      exact ⟨c, cs, rfl, ⟨h1, h2⟩, fun ch hch => by
        rcases h3 ch hch with (⟨ha, hb⟩ | ⟨ha, hb⟩) | hh
        · exact Or.inl ⟨ha, hb⟩
        · exact Or.inr (Or.inl ⟨ha, hb⟩)
        · exact Or.inr (Or.inr hh)⟩
    · rintro ⟨c', cs', heq, ⟨h1, h2⟩, h3⟩
      obtain ⟨rfl, rfl⟩ : c = c' ∧ cs = cs' := by
        have hinj : c :: cs = c' :: cs' := heq
        exact ⟨(List.cons.injEq _ _ _ _ ▸ hinj : _ ∧ _).1,
               (List.cons.injEq _ _ _ _ ▸ hinj : _ ∧ _).2⟩
      refine ⟨⟨h1, h2⟩, fun ch hch => ?_⟩
      rcases h3 ch hch with ⟨ha, hb⟩ | ⟨ha, hb⟩ | hh
      · exact Or.inl (Or.inl ⟨ha, hb⟩)
      · exact Or.inl (Or.inr ⟨ha, hb⟩)
      · exact Or.inr hh

/-- C10: a cache name passes the schema validator's regular expression
exactly when it is one lowercase ASCII letter followed by lowercase
letters, digits, or hyphens; the empty name, a leading digit or hyphen,
and an uppercase letter anywhere are all rejected. -/
theorem claim_c10_name_validator :
    (∀ s : String, cacheNameRegexMatches s = true ↔ specCacheNameAccepted s) ∧
    cacheNameRegexMatches "" = false ∧
    (∀ (c : Char) (cs : List Char), (('0' ≤ c ∧ c ≤ '9') ∨ c = '-') →
      cacheNameRegexMatches (String.mk (c :: cs)) = false) ∧
    (∀ (s : String) (ch : Char), ch ∈ s.data → 'A' ≤ ch → ch ≤ 'Z' →
      cacheNameRegexMatches s = false) := by
  refine ⟨cacheNameRegexMatches_iff, rfl, ?_, ?_⟩
  · intro c cs h
    rw [← Bool.not_eq_true]
    intro hm
    obtain ⟨c', cs', heq, ⟨ha, hz⟩, -⟩ := (cacheNameRegexMatches_iff _).mp hm
    obtain rfl : c = c' := ((List.cons.injEq _ _ _ _ ▸ (heq : c :: cs = c' :: cs')) : _ ∧ _).1
    rcases h with ⟨-, h9⟩ | rfl
    · exact absurd (le_trans ha h9) (by decide)
    · exact absurd ha (by decide)
  · intro s ch hmem hA hZ
    rw [← Bool.not_eq_true]
    intro hm
    obtain ⟨c, cs, heq, ⟨ha, hz⟩, htail⟩ := (cacheNameRegexMatches_iff _).mp hm
    rw [heq] at hmem
    rcases List.mem_cons.mp hmem with rfl | hmem
    · exact absurd (le_trans ha hZ) (by decide)
    · rcases htail ch hmem with ⟨h1, h2⟩ | ⟨h1, h2⟩ | rfl
      · exact absurd (le_trans h1 hZ) (by decide)
      · exact absurd (le_trans hA h2) (by decide)
      · exact absurd hA (by decide)

/-- Witness for C10: "my-cache2" is accepted; a leading digit, a leading
hyphen, an inner uppercase letter, and the empty string are rejected. -/
theorem claim_c10_name_validator_witness :
    specCacheNameAccepted "my-cache2" ∧
    cacheNameRegexMatches (String.mk ('1' :: ['a', 'b'])) = false ∧
    cacheNameRegexMatches (String.mk ('-' :: ['a'])) = false ∧
    cacheNameRegexMatches "aBc" = false ∧
    cacheNameRegexMatches "" = false :=
  ⟨(claim_c10_name_validator.1 "my-cache2").mp (by decide),
   claim_c10_name_validator.2.2.1 '1' ['a', 'b'] (Or.inl (by decide)),
   claim_c10_name_validator.2.2.1 '-' ['a'] (Or.inr rfl),
   claim_c10_name_validator.2.2.2 "aBc" 'B' (by decide) (by decide) (by decide),
   claim_c10_name_validator.2.1⟩

/-- Helper: every HTTP attempt GetUser issues is GET /user. -/
lemma GetUser_trace_getOnly (srv : Server) (cancelled : Nat → Bool)
    (retryMax : Nat) :
    ∀ q ∈ (GetUser srv cancelled retryMax).2, q = (⟨"GET", "/user", none⟩ : Request) := by
  intro q hq
  have hsnd : (GetUser srv cancelled retryMax).2 =
      (runRequest srv cancelled retryMax ⟨"GET", "/user", none⟩).2 := by
    cases hr : (runRequest srv cancelled retryMax ⟨"GET", "/user", none⟩).1 with
    | error e => simp [GetUser, hr]
    | ok p =>
      obtain ⟨s, b⟩ := p
      simp only [GetUser, hr]
      split
      · rfl
      · split <;> rfl
  rw [hsnd] at hq
  simp only [runRequest] at hq
  exact List.eq_of_mem_replicate hq

/-- C6: CreateCache first resolves the user; a user-lookup failure yields
the wrapped user-lookup error with no POST ever issued (every request in
the trace is GET /user); on success it POSTs /cache/{name} with body
{isPublic, generateSigningKey: true, accountID = user id}, treats
exactly 200 and 201 as success, and returns the follow-up GetCache's
Cache, a follow-up failure being wrapped as "cache created but failed to
fetch details". -/
theorem claim_c6_create_cache (srv : Server) (cancelled : Nat → Bool)
    (retryMax : Nat) (name : String) (isPublic : Bool) :
    (∀ e tr, GetUser srv cancelled retryMax = (.error e, tr) →
      CreateCache srv cancelled retryMax name isPublic =
        (.error (.wrapped "failed to get user for cache creation" e), tr) ∧
      ∀ q ∈ tr, q = (⟨"GET", "/user", none⟩ : Request)) ∧
    (∀ u tr1, GetUser srv cancelled retryMax = (.ok u, tr1) →
      (∀ q ∈ (runRequest srv cancelled retryMax (postReqFor name isPublic u.ID)).2,
        q = postReqFor name isPublic u.ID) ∧
      (∀ e, (runRequest srv cancelled retryMax (postReqFor name isPublic u.ID)).1 = .error e →
        CreateCache srv cancelled retryMax name isPublic =
          (.error e,
           tr1 ++ (runRequest srv cancelled retryMax (postReqFor name isPublic u.ID)).2)) ∧
      (∀ s b, (runRequest srv cancelled retryMax (postReqFor name isPublic u.ID)).1 = .ok (s, b) →
        (¬(s = 200 ∨ s = 201) →
          CreateCache srv cancelled retryMax name isPublic =
            (.error (.apiError (handleErrorResponse s b)),
             tr1 ++ (runRequest srv cancelled retryMax (postReqFor name isPublic u.ID)).2)) ∧
        ((s = 200 ∨ s = 201) →
          (∀ e tr3, GetCache srv cancelled retryMax name = (.error e, tr3) →
            CreateCache srv cancelled retryMax name isPublic =
              (.error (.wrapped "cache created but failed to fetch details" e),
               tr1 ++ (runRequest srv cancelled retryMax (postReqFor name isPublic u.ID)).2 ++ tr3)) ∧
          (∀ c tr3, GetCache srv cancelled retryMax name = (.ok c, tr3) →
            CreateCache srv cancelled retryMax name isPublic =
              (.ok c,
               tr1 ++ (runRequest srv cancelled retryMax (postReqFor name isPublic u.ID)).2 ++ tr3))))) := by
  constructor
  · intro e tr hU
    refine ⟨by simp [CreateCache, hU], ?_⟩
    intro q hq
    have hq' : q ∈ (GetUser srv cancelled retryMax).2 := by
      rw [hU]
      exact hq
    exact GetUser_trace_getOnly srv cancelled retryMax q hq'
  · intro u tr1 hU
    refine ⟨?_, ?_, ?_⟩
    · intro q hq
      simp only [runRequest] at hq
      exact List.eq_of_mem_replicate hq
    · intro e hpost
      simp [CreateCache, hU, hpost]
    · intro s b hpost
      constructor
      · intro hs
        have hs' : s ≠ 200 ∧ s ≠ 201 := by
          constructor <;> intro h <;> exact hs (by simp [h])
        simp [CreateCache, hU, hpost, hs']
      · intro hs
        have hs' : ¬(s ≠ 200 ∧ s ≠ 201) := by
          rcases hs with rfl | rfl <;> simp
        constructor
        · intro e tr3 hG
          simp [CreateCache, hU, hpost, hs', hG]
        · intro c tr3 hG
          simp [CreateCache, hU, hpost, hs', hG]

/-- The user Scenario E's server reports. -/
def demoUser : User := ⟨42, "alice", "", "", ""⟩

/-- The JSON document Scenario E's server returns for GET /user. -/
def demoUserJson : JVal :=
  .jobj [("id", .jnum 42), ("githubUsername", .jstr "alice")]

/-- The cache Scenario E's server reports after creation. -/
def demoCache : Cache :=
  ⟨"new-cache", "https://new-cache.cachix.org", true, ["k1"], ""⟩

/-- The JSON document Scenario E's server returns for GET /cache/new-cache. -/
def demoCacheJson : JVal :=
  .jobj [("name", .jstr "new-cache"), ("uri", .jstr "https://new-cache.cachix.org"),
    ("isPublic", .jbool true), ("publicSigningKeys", .jarr [.jstr "k1"])]

/-- Scenario E's server: GET /user yields the demo user, the POST yields
201 with an empty body, GET /cache/new-cache yields the demo cache. -/
def demoServer : Server :=
  ⟨fun req _ =>
    if req.path = "/user" then .response 200 ⟨"", some demoUserJson⟩
    else if req.method = "POST" then .response 201 ⟨"", none⟩
    else .response 200 ⟨"", some demoCacheJson⟩⟩

/-- Witness for C6, Scenario E: against the demo server,
CreateCache("new-cache", true) issues GET /user, then the POST carrying
accountID 42 and generateSigningKey true, then GET /cache/new-cache,
and returns the fetched Cache. -/
theorem claim_c6_create_cache_witness :
    CreateCache demoServer noCancel DefaultRetryMax "new-cache" true =
      (.ok demoCache,
       [⟨"GET", "/user", none⟩, ⟨"POST", "/cache/new-cache", some ⟨true, true, 42⟩⟩,
        ⟨"GET", "/cache/new-cache", none⟩]) :=
  ((((claim_c6_create_cache demoServer noCancel DefaultRetryMax "new-cache" true).2
      demoUser [⟨"GET", "/user", none⟩] rfl).2.2
      201 ⟨"", none⟩ rfl).2 (Or.inr rfl)).2
      demoCache [⟨"GET", "/cache/new-cache", none⟩] rfl
